import Mathlib

/-
  Verification of the resume-evaluator upload client (src/src/App.js).

  The component state and its operations are embedded shallowly:
  * `AppState` mirrors the React state hooks `selectedFile`, `feedback`,
    `error`, `loading` (App.js lines 7-10).  The `feedback` field is an
    `Option String` because `setFeedback(data.feedback)` can store the
    JavaScript value `undefined` when the response body has no
    `feedback` field; `none` models `undefined` and the initial value
    `""` is `some ("")`.
  * `uploadResume` models the async handler at lines 36-79.  Its network
    phase is parametrised by a `FetchResult`: either a transport failure
    (the `fetch` promise rejects, caught at line 73) or a `Response`
    carrying the HTTP status, the status text, and the outcome of
    `response.json()` - `none` when the body fails to parse (the thrown
    error is caught at line 73), `some fb` when it parses with `fb` the
    value of the `feedback` field (`none` = field absent / undefined).
  * `resetRequest` models lines 88-92, `selectFile` models the file
    input onChange handler at lines 125-128, `downloadPDF` models
    lines 81-86.
-/

namespace ResumeApp

/-- A user-chosen file handle with the attributes the code reads:
`name`, `size` (bytes), `type` (mime type). -/
structure File where
  name : String
  size : Nat
  type : String
  deriving DecidableEq, Repr

/-- The component state: the four React state hooks of App.js lines 7-10
(the purely visual `darkMode` hook is irrelevant to the claims and omitted). -/
structure AppState where
  selectedFile : Option File
  feedback : Option String
  error : String
  loading : Bool
  deriving DecidableEq, Repr

/-- `MAX_FILE_SIZE` from App.js line 13: 2 * 1024 * 1024 bytes. -/
def MAX_FILE_SIZE : Nat := 2 * 1024 * 1024

/-- `ALLOWED_FILE_TYPES` from App.js line 14. -/
def ALLOWED_FILE_TYPES : List String :=
  ["application/pdf", "application/msword",
   "application/vnd.openxmlformats-officedocument.wordprocessingml.document",
   "text/plain"]

/-- Message set at App.js line 39. -/
def noFileMsg : String := "Please select a file before uploading."

/-- Message set at App.js line 44. -/
def sizeMsg : String := "File size exceeds the 2MB limit."

/-- Message set at App.js line 49. -/
def typeMsg : String := "Invalid file type. Please upload a PDF, DOC, DOCX, or TXT file."

/-- Message set at App.js line 67. -/
def badRequestMsg : String := "Bad request. Please check the file format or try another resume."

/-- Message set at App.js line 69. -/
def serverErrorMsg : String := "Server error. Please try again later."

/-- The literal part of the template string at App.js line 71. -/
def unexpectedErrorText : String := "Unexpected error: "

/-- Message set at App.js line 75 (the catch branch). -/
def uploadErrorMsg : String := "There was an error uploading the resume. Please try again."

/-- Outcome of the inline validation chain of App.js lines 38-51. -/
inductive ValidationResult where
  | valid : ValidationResult
  | invalid : String → ValidationResult
  deriving DecidableEq, Repr

/-- The validation chain of `uploadResume` (App.js lines 38-51), in source
order with short-circuit: missing file (line 38), then `size > MAX_FILE_SIZE`
(line 43), then `type` outside `ALLOWED_FILE_TYPES` (line 48). -/
def validate (f : Option File) : ValidationResult :=
  match f with
  | none => ValidationResult.invalid noFileMsg
  | some file =>
    if file.size > MAX_FILE_SIZE then ValidationResult.invalid sizeMsg
    else if ¬ (ALLOWED_FILE_TYPES.contains file.type) then ValidationResult.invalid typeMsg
    else ValidationResult.valid

/-- An HTTP response as the handler observes it: `status`, `statusText`,
and the result of `response.json()` - `none` when parsing throws,
`some fb` when it yields an object whose `feedback` field is `fb`
(`fb = none` models an absent field, i.e. `undefined`). -/
structure Response where
  status : Nat
  statusText : String
  body : Option (Option String)
  deriving DecidableEq, Repr

/-- `response.ok` of the fetch API: status in the range 200-299. -/
def respOk (r : Response) : Bool := 200 ≤ r.status && r.status ≤ 299

/-- Resolution of the `fetch` call at App.js line 58: either a response,
or a transport-level rejection (no response at all). -/
inductive FetchResult where
  | success : Response → FetchResult
  | failure : FetchResult
  deriving DecidableEq, Repr

/-- How a `uploadResume` invocation ended: `NotSent` when validation failed
and no request was issued (the function returns before `fetch`),
`Succeeded` for the 2xx-with-parsed-body branch (line 63-65),
`Failed` for every error branch (lines 66-75). -/
inductive UploadOutcome where
  | NotSent : UploadOutcome
  | Succeeded : UploadOutcome
  | Failed : UploadOutcome
  deriving DecidableEq, Repr

/-- Result of one `uploadResume` invocation: the final component state,
whether a network request was issued, and which branch concluded it. -/
structure SubmitResult where
  state : AppState
  requestIssued : Bool
  outcome : UploadOutcome
  deriving DecidableEq, Repr

/-- The intermediate state while the `fetch` of App.js line 58 is pending:
`setError("")` ran at line 37 and `setLoading(true)` at line 57, nothing
else has been written yet.  This is the `Uploading` phase. -/
def inFlightState (s : AppState) : AppState :=
  { s with error := "", loading := true }

/-- The `uploadResume` handler of App.js lines 36-79 as a function of the
pre-state and the fetch resolution.  Each branch's state is the net effect
of the assignments on that control path: `setError("")` at entry (line 37),
the validation returns (lines 38-51), then `setLoading(true)`, the status
dispatch (lines 63-72), the catch (lines 73-75) and the finally
`setLoading(false)` (line 77). -/
def uploadResume (s : AppState) (net : FetchResult) : SubmitResult :=
  match validate s.selectedFile with
  | ValidationResult.invalid msg =>
      { state := { s with error := msg },
        requestIssued := false, outcome := UploadOutcome.NotSent }
  | ValidationResult.valid =>
      match net with
      | FetchResult.failure =>
          { state := { s with error := uploadErrorMsg, loading := false },
            requestIssued := true, outcome := UploadOutcome.Failed }
      | FetchResult.success resp =>
          if respOk resp then
            match resp.body with
            | none =>
                { state := { s with error := uploadErrorMsg, loading := false },
                  requestIssued := true, outcome := UploadOutcome.Failed }
            | some fb =>
                { state := { s with error := "", feedback := fb, loading := false },
                  requestIssued := true, outcome := UploadOutcome.Succeeded }
          else if resp.status = 400 then
            { state := { s with error := badRequestMsg, loading := false },
              requestIssued := true, outcome := UploadOutcome.Failed }
          else if resp.status = 500 then
            { state := { s with error := serverErrorMsg, loading := false },
              requestIssued := true, outcome := UploadOutcome.Failed }
          else
            { state := { s with error := unexpectedErrorText ++ resp.statusText, loading := false },
              requestIssued := true, outcome := UploadOutcome.Failed }

/-- `resetRequest` of App.js lines 88-92: clears the selected file, the
feedback and the error.  It does not touch `loading`. -/
def resetRequest (s : AppState) : AppState :=
  { s with selectedFile := none, feedback := some (""), error := "" }

/-- The file input onChange handler of App.js lines 125-128: stores
`e.target.files[0]` (which is `undefined`, i.e. `none`, when the picker
was cancelled) and clears the error. -/
def selectFile (s : AppState) (f : Option File) : AppState :=
  { s with selectedFile := f, error := "" }

/-- A produced jsPDF document: the `doc.text(t, x, y)` calls in order,
and the filename passed to `doc.save`. -/
structure SavedDoc where
  texts : List (String × Nat × Nat)
  filename : String
  deriving DecidableEq, Repr

/-- The fixed title line written at App.js line 83. -/
def titleLine : String := "Resume Evaluation Feedback"

/-- The fixed filename passed to `doc.save` at App.js line 85. -/
def pdfFileName : String := "resume_feedback.pdf"

/-- `downloadPDF` of App.js lines 81-86: writes the title line at (10,10),
the feedback at (10,20), and saves under the fixed filename.  It is a pure
function of the current feedback string. -/
def downloadPDF (feedback : String) : SavedDoc :=
  { texts := [(titleLine, 10, 10), (feedback, 10, 20)],
    filename := pdfFileName }

/-- A concrete valid file for witnesses. -/
def pdfFile : File :=
  { name := "resume.pdf", size := 1000, type := "application/pdf" }

/-- A concrete idle state with a valid selected file, for witnesses. -/
def readyState : AppState :=
  { selectedFile := some pdfFile, feedback := some (""), error := "", loading := false }

/-- A concrete feedback string used in witnesses and counterexamples. -/
def sampleFeedback : String := "Great resume"

/-- A 2xx response whose body parses and carries a feedback string. -/
def resp200 : Response :=
  { status := 200, statusText := "OK", body := some (some sampleFeedback) }

/-- A concrete 400 response. -/
def resp400 : Response :=
  { status := 400, statusText := "Bad Request", body := some none }

/-- A concrete 500 response. -/
def resp500 : Response :=
  { status := 500, statusText := "Internal Server Error", body := some none }

/-- A concrete non-2xx response that is neither 400 nor 500. -/
def resp503 : Response :=
  { status := 503, statusText := "Service Unavailable", body := some none }

/-- C1: when validation passes, `uploadResume` dispatches on the response
exactly as specified: a 2xx response with a parsed body stores the body's
feedback field and concludes `Succeeded`; status 400 sets the bad-request
message, status 500 the server-error message, any other non-2xx status a
message containing the response's status text, and a transport failure the
generic retry message - each of those four concluding `Failed`. -/
theorem C1_response_status_branching (s : AppState) (resp : Response)
    (hval : validate s.selectedFile = ValidationResult.valid) :
    (∀ fb, respOk resp = true → resp.body = some fb →
      (uploadResume s (FetchResult.success resp)).state.feedback = fb ∧
      (uploadResume s (FetchResult.success resp)).outcome = UploadOutcome.Succeeded) ∧
    (resp.status = 400 →
      (uploadResume s (FetchResult.success resp)).state.error = badRequestMsg ∧
      (uploadResume s (FetchResult.success resp)).outcome = UploadOutcome.Failed) ∧
    (resp.status = 500 →
      (uploadResume s (FetchResult.success resp)).state.error = serverErrorMsg ∧
      (uploadResume s (FetchResult.success resp)).outcome = UploadOutcome.Failed) ∧
    (respOk resp = false → resp.status ≠ 400 → resp.status ≠ 500 →
      (uploadResume s (FetchResult.success resp)).state.error
        = unexpectedErrorText ++ resp.statusText ∧
      (uploadResume s (FetchResult.success resp)).outcome = UploadOutcome.Failed) ∧
    ((uploadResume s FetchResult.failure).state.error = uploadErrorMsg ∧
      (uploadResume s FetchResult.failure).outcome = UploadOutcome.Failed) := by
  refine ⟨?_, ?_, ?_, ?_, ?_⟩
  · intro fb hok hb
    simp [uploadResume, hval, hok, hb]
  · intro h400
    have hok : respOk resp = false := by simp [respOk, h400]
    simp [uploadResume, hval, hok, h400]
  · intro h500
    have hok : respOk resp = false := by simp [respOk, h500]
    simp [uploadResume, hval, hok, h500]
  · intro hok h400 h500
    simp [uploadResume, hval, hok, h400, h500]
  · simp [uploadResume, hval]

/-- Witness for C1 at concrete responses. -/
theorem C1_response_status_branching_witness :
    (uploadResume readyState (FetchResult.success resp200)).state.feedback
        = some sampleFeedback ∧
    (uploadResume readyState (FetchResult.success resp400)).state.error = badRequestMsg ∧
    (uploadResume readyState (FetchResult.success resp500)).state.error = serverErrorMsg ∧
    (uploadResume readyState (FetchResult.success resp503)).state.error
        = unexpectedErrorText ++ resp503.statusText ∧
    (uploadResume readyState FetchResult.failure).outcome = UploadOutcome.Failed := by
  refine ⟨?_, ?_, ?_, ?_, ?_⟩
  · exact ((C1_response_status_branching readyState resp200 (by decide)).1
      (some sampleFeedback) (by decide) rfl).1
  · exact ((C1_response_status_branching readyState resp400 (by decide)).2.1 rfl).1
  · exact ((C1_response_status_branching readyState resp500 (by decide)).2.2.1 rfl).1
  · exact ((C1_response_status_branching readyState resp503 (by decide)).2.2.2.1
      (by decide) (by decide) (by decide)).1
  · exact (C1_response_status_branching readyState resp503 (by decide)).2.2.2.2.2

/-- C2: the validation rules apply in strict order with short-circuit: a
missing file yields the no-file message; otherwise a size strictly above
2 MiB yields the size message regardless of mime type; otherwise a mime
type outside the four-element allow-set yields the type message even at
zero size; otherwise the file is valid. -/
theorem C2_validate_rules :
    validate none = ValidationResult.invalid noFileMsg ∧
    ALLOWED_FILE_TYPES.length = 4 ∧
    (∀ f : File, MAX_FILE_SIZE < f.size →
      validate (some f) = ValidationResult.invalid sizeMsg) ∧
    (∀ f : File, f.size ≤ MAX_FILE_SIZE → ALLOWED_FILE_TYPES.contains f.type = false →
      validate (some f) = ValidationResult.invalid typeMsg) ∧
    (∀ f : File, f.size ≤ MAX_FILE_SIZE → ALLOWED_FILE_TYPES.contains f.type = true →
      validate (some f) = ValidationResult.valid) := by
  refine ⟨rfl, rfl, ?_, ?_, ?_⟩
  · intro f hsize
    simp [validate, hsize]
  · intro f hsize htype
    have hmem : f.type ∉ ALLOWED_FILE_TYPES := by simpa using htype
    simp [validate, Nat.not_lt.mpr hsize, hmem]
  · intro f hsize htype
    have hmem : f.type ∈ ALLOWED_FILE_TYPES := by simpa using htype
    simp [validate, Nat.not_lt.mpr hsize, hmem]

/-- An oversized file (one byte above the limit) with an allowed mime type. -/
def bigPdf : File :=
  { name := "big.pdf", size := 2 * 1024 * 1024 + 1, type := "application/pdf" }

/-- A zero-size file with a disallowed mime type. -/
def emptyPng : File :=
  { name := "empty.png", size := 0, type := "image/png" }

/-- Witness for C2 at concrete files. -/
theorem C2_validate_rules_witness :
    validate none = ValidationResult.invalid noFileMsg ∧
    validate (some bigPdf) = ValidationResult.invalid sizeMsg ∧
    validate (some emptyPng) = ValidationResult.invalid typeMsg ∧
    validate (some pdfFile) = ValidationResult.valid := by
  refine ⟨C2_validate_rules.1, ?_, ?_, ?_⟩
  · exact C2_validate_rules.2.2.1 bigPdf (by decide)
  · exact C2_validate_rules.2.2.2.1 emptyPng (by decide) (by decide)
  · exact C2_validate_rules.2.2.2.2 pdfFile (by decide) (by decide)

/-- A 2xx response whose body parses to an object without a `feedback`
field, so `data.feedback` is `undefined`. -/
def resp200NoField : Response :=
  { status := 200, statusText := "OK", body := some none }

/-- A 2xx response whose body fails to parse as JSON
(`response.json()` throws). -/
def resp200BadJson : Response :=
  { status := 200, statusText := "OK", body := none }

/-- C3 counterexample: on a 2xx response whose parsed body lacks a
`feedback` field, the handler does NOT fail with a decode-error message;
it stores the absent value (`undefined`) as feedback, leaves the error
empty and concludes `Succeeded`. -/
theorem C3_counterexample :
    (uploadResume readyState (FetchResult.success resp200NoField)).outcome
        = UploadOutcome.Succeeded ∧
    (uploadResume readyState (FetchResult.success resp200NoField)).state.error = "" ∧
    (uploadResume readyState (FetchResult.success resp200NoField)).state.feedback = none := by
  decide

/-- C3 amended: on a 2xx response whose body throws during JSON parsing,
the catch branch sets the generic upload-error message and the outcome is
`Failed`; but a 2xx response whose body parses without a `feedback` field
is treated as a success: the absent value is stored as feedback, the error
stays empty and the outcome is `Succeeded`. -/
theorem C3_amended_decode_handling (s : AppState) (resp : Response)
    (hval : validate s.selectedFile = ValidationResult.valid)
    (hok : respOk resp = true) :
    (resp.body = none →
      (uploadResume s (FetchResult.success resp)).state.error = uploadErrorMsg ∧
      (uploadResume s (FetchResult.success resp)).outcome = UploadOutcome.Failed) ∧
    (resp.body = some none →
      (uploadResume s (FetchResult.success resp)).state.feedback = none ∧
      (uploadResume s (FetchResult.success resp)).state.error = "" ∧
      (uploadResume s (FetchResult.success resp)).outcome = UploadOutcome.Succeeded) := by
  constructor
  · intro hb
    simp [uploadResume, hval, hok, hb]
  · intro hb
    simp [uploadResume, hval, hok, hb]

/-- Witness for the amended C3 at concrete responses. -/
theorem C3_amended_decode_handling_witness :
    (uploadResume readyState (FetchResult.success resp200BadJson)).state.error
        = uploadErrorMsg ∧
    (uploadResume readyState (FetchResult.success resp200NoField)).outcome
        = UploadOutcome.Succeeded := by
  constructor
  · exact ((C3_amended_decode_handling readyState resp200BadJson
      (by decide) (by decide)).1 rfl).1
  · exact ((C3_amended_decode_handling readyState resp200NoField
      (by decide) (by decide)).2 rfl).2.2

/-- A state in which a feedback result is currently displayed. -/
def shownFeedbackState : AppState :=
  { selectedFile := some pdfFile, feedback := some sampleFeedback,
    error := "", loading := false }

/-- C4 counterexample: selecting a new file does NOT clear a non-empty
FeedbackText - the onChange handler only stores the file and clears the
error, so the previously displayed feedback survives the selection. -/
theorem C4_counterexample :
    (selectFile shownFeedbackState (some pdfFile)).feedback = some sampleFeedback ∧
    ¬ (selectFile shownFeedbackState (some pdfFile)).feedback = some ("") := by
  decide

/-- C4 amended: selecting a new file replaces SelectedFile and clears
ErrorMessage, but leaves FeedbackText (and the loading flag) unchanged;
FeedbackText is cleared only by `resetRequest`. -/
theorem C4_amended_selectFile_clears_only_error (s : AppState) (f : Option File) :
    (selectFile s f).selectedFile = f ∧
    (selectFile s f).error = "" ∧
    (selectFile s f).feedback = s.feedback ∧
    (selectFile s f).loading = s.loading :=
  ⟨rfl, rfl, rfl, rfl⟩

/-- C5 counterexample: `resetRequest` invoked while an upload is in flight
(the state between `setLoading(true)` and the promise resolution) leaves
the loading flag set, so the state is still Uploading, not Idle. -/
theorem C5_counterexample :
    (resetRequest (inFlightState readyState)).loading = true := by
  decide

/-- C5 amended: `resetRequest` always clears SelectedFile, FeedbackText and
ErrorMessage, but never touches the loading flag; the result is Idle
exactly when the call was not made during an in-flight upload. -/
theorem C5_amended_reset (s : AppState) :
    resetRequest s =
      { selectedFile := none, feedback := some (""), error := "",
        loading := s.loading } :=
  rfl

/-- C6: when validation rejects the selected file, `uploadResume` stores
the corresponding user-facing message as the error, issues no network
request, concludes `NotSent`, and leaves the loading flag unchanged (so a
call from the Idle state stays Idle). -/
theorem C6_invalid_no_request (s : AppState) (net : FetchResult) (msg : String)
    (hval : validate s.selectedFile = ValidationResult.invalid msg) :
    (uploadResume s net).state.error = msg ∧
    (uploadResume s net).requestIssued = false ∧
    (uploadResume s net).outcome = UploadOutcome.NotSent ∧
    (uploadResume s net).state.loading = s.loading := by
  simp [uploadResume, hval]

/-- An idle state with no file selected. -/
def noFileState : AppState :=
  { selectedFile := none, feedback := some (""), error := "", loading := false }

/-- Witness for C6 at a concrete stateless-file submit. -/
theorem C6_invalid_no_request_witness :
    (uploadResume noFileState FetchResult.failure).state.error = noFileMsg ∧
    (uploadResume noFileState FetchResult.failure).requestIssued = false ∧
    (uploadResume noFileState FetchResult.failure).state.loading = false := by
  obtain ⟨h1, h2, _, h4⟩ :=
    C6_invalid_no_request noFileState FetchResult.failure noFileMsg (by decide)
  exact ⟨h1, h2, h4⟩

/-- Every branch of `uploadResume` either leaves the feedback untouched or
is the success branch. -/
lemma uploadResume_feedback_unchanged_or_success (s : AppState) (net : FetchResult) :
    (uploadResume s net).state.feedback = s.feedback ∨
    (uploadResume s net).outcome = UploadOutcome.Succeeded := by
  rcases hval : validate s.selectedFile with _ | msg
  · rcases net with resp | _
    · by_cases hok : respOk resp = true
      · rcases hb : resp.body with _ | fb
        · left; simp [uploadResume, hval, hok, hb]
        · right; simp [uploadResume, hval, hok, hb]
      · left
        have hok' : respOk resp = false := by simpa using hok
        by_cases h400 : resp.status = 400
        · simp [uploadResume, hval, hok', h400]
        · by_cases h500 : resp.status = 500
          · simp [uploadResume, hval, hok', h400, h500]
          · simp [uploadResume, hval, hok', h400, h500]
    · left; simp [uploadResume, hval]
  · left; simp [uploadResume, hval]

/-- C7: every failing `uploadResume` invocation (HTTP 400, 500, other
non-2xx, JSON parse failure, or transport failure) leaves FeedbackText
exactly as it was before the call. -/
theorem C7_failure_preserves_feedback (s : AppState) (net : FetchResult)
    (hfail : (uploadResume s net).outcome = UploadOutcome.Failed) :
    (uploadResume s net).state.feedback = s.feedback := by
  rcases uploadResume_feedback_unchanged_or_success s net with h | h
  · exact h
  · rw [hfail] at h
    exact absurd h (by decide)

/-- Witness for C7: a transport failure after a successful run keeps the
displayed feedback. -/
theorem C7_failure_preserves_feedback_witness :
    (uploadResume shownFeedbackState FetchResult.failure).state.feedback
        = some sampleFeedback :=
  C7_failure_preserves_feedback shownFeedbackState FetchResult.failure (by decide)

/-- C8: for every non-empty feedback string X, `downloadPDF` produces the
document whose text content is the literal title line followed by X and
whose filename is the fixed literal; as a pure function of the feedback
string alone it reads nothing else and retains no state between calls. -/
theorem C8_downloadPDF_content (X : String) (_hX : ¬ X = "") :
    downloadPDF X =
      { texts := [(titleLine, 10, 10), (X, 10, 20)], filename := pdfFileName } :=
  rfl

/-- Witness for C8 at a concrete feedback string. -/
theorem C8_downloadPDF_content_witness :
    ¬ sampleFeedback = "" ∧
    downloadPDF sampleFeedback =
      { texts := [(titleLine, 10, 10), (sampleFeedback, 10, 20)],
        filename := pdfFileName } :=
  ⟨by decide, C8_downloadPDF_content sampleFeedback (by decide)⟩

/-- C9: every `uploadResume` invocation that issues a network request ends
with the loading flag false, on every outcome - the `finally` clause runs
on the success path, every error status, the JSON decode failure and the
transport failure alike (and the embedding is a total function, so no
branch escapes without producing a final state). -/
theorem C9_loading_always_cleared (s : AppState) (net : FetchResult)
    (hreq : (uploadResume s net).requestIssued = true) :
    (uploadResume s net).state.loading = false := by
  rcases hval : validate s.selectedFile with _ | msg
  · rcases net with resp | _
    · by_cases hok : respOk resp = true
      · rcases hb : resp.body with _ | fb
        · simp [uploadResume, hval, hok, hb]
        · simp [uploadResume, hval, hok, hb]
      · have hok' : respOk resp = false := by simpa using hok
        by_cases h400 : resp.status = 400
        · simp [uploadResume, hval, hok', h400]
        · by_cases h500 : resp.status = 500
          · simp [uploadResume, hval, hok', h400, h500]
          · simp [uploadResume, hval, hok', h400, h500]
    · simp [uploadResume, hval]
  · simp [uploadResume, hval] at hreq

/-- Witness for C9: a concrete issued request (transport failure) ends
with loading false. -/
theorem C9_loading_always_cleared_witness :
    (uploadResume readyState FetchResult.failure).state.loading = false :=
  C9_loading_always_cleared readyState FetchResult.failure (by decide)

/-- C10: when no file is selected (null or undefined, e.g. a cancelled
picker stored `e.target.files[0] = undefined`), `uploadResume` takes the
no-file branch: it sets the no-file message and returns before any access
to the file's attributes and before any network call - in the embedding
the file's `size` and `type` are only reachable through the `some`
branch of the option, which is never entered. -/
theorem C10_no_file_guard (s : AppState) (net : FetchResult)
    (h : s.selectedFile = none) :
    uploadResume s net =
      { state := { s with error := noFileMsg },
        requestIssued := false, outcome := UploadOutcome.NotSent } := by
  simp [uploadResume, validate, h]

/-- Witness for C10 at a concrete empty selection. -/
theorem C10_no_file_guard_witness :
    uploadResume noFileState FetchResult.failure =
      { state := { noFileState with error := noFileMsg },
        requestIssued := false, outcome := UploadOutcome.NotSent } :=
  C10_no_file_guard noFileState FetchResult.failure rfl

end ResumeApp
